import Mathlib

/-!
Shallow embedding of the Gitsy Fast-Push core: the pre-flight diagnostic
engine (`GitService.diagnoseFastPushIssues`), its inspector queries, the
orchestration slices of `MessageHandler.handleFastPushExecute`
(branch normalization, relevant-issue filtering, tolerant commit, push with
rejection recovery), the interactive remediation protocol
(`resolveIssuesInteractively` / `handleFixableIssue`), and
`GitService.setRemote`.

Repository observables that the TypeScript code obtains through inspector
queries (`isRepo`, `getConflicts`, `getRemote`, `getBranchDivergence`,
`isClean`, `getStagedFiles`, lock-file stat, ...) are modelled as fields of
a `RepoState` record; the diagnostic engine and the orchestrator slices are
translated from the source as functions over that record.  Purely
descriptive `title`/`description`/`resolution` strings of issues are not
modelled; an issue is its `id` together with its `autoFixable` flag, which
is all the control flow ever consults.
-/

/-- Prefix test on character lists: models JavaScript `String.startsWith`
(the needle is the second argument). -/
def listStartsWith : List Char → List Char → Bool
  | _, [] => true
  | [], _ => false
  | a :: as, b :: bs => a == b && listStartsWith as bs

/-- Substring test on character lists (needle first, haystack second):
models JavaScript `String.includes`. -/
def listContainsSub (pat : List Char) : List Char → Bool
  | [] => listStartsWith [] pat
  | c :: rest => listStartsWith (c :: rest) pat || listContainsSub pat rest

/-- Models JavaScript `s.startsWith(p)`. -/
def strStartsWith (s p : String) : Bool := listStartsWith s.data p.data

/-- Models JavaScript `s.includes(p)` (and `msg.includes(...)` checks). -/
def strContains (s p : String) : Bool := listContainsSub p.data s.data

/-- The "nothing to commit" family of commit error messages tolerated by the
Fast-Push flow (MessageHandler.handleFastPushExecute step 7 and
GitOperations.handleFastPush). -/
def isNothingToCommitMsg (msg : String) : Bool :=
  strContains msg "nothing to commit" || strContains msg "working tree clean" ||
  strContains msg "no changes added to commit" || strContains msg "nothing added to commit"

/-- The push-rejection family of error messages that triggers the
pull-rebase-and-retry offer (MessageHandler.handleFastPushExecute step 9 and
GitOperations.handleFastPush). -/
def isRejectionMsg (msg : String) : Bool :=
  strContains msg "rejected" || strContains msg "non-fast-forward" ||
  strContains msg "fetch first" || strContains msg "failed to push"

/-- A pre-flight issue as produced by `GitService.diagnoseFastPushIssues`;
only the fields the control flow consults are kept. -/
structure FastPushIssue where
  id : String
  autoFixable : Bool
deriving DecidableEq, Repr

/-- Issue pushed when the folder is not a git repository. -/
def noRepoIssue : FastPushIssue := ⟨"no-repo", true⟩

/-- Issue pushed when unresolved merge conflicts exist. -/
def mergeConflictsIssue : FastPushIssue := ⟨"merge-conflicts", false⟩

/-- Issue pushed when a rebase is in progress. -/
def rebaseInProgressIssue : FastPushIssue := ⟨"rebase-in-progress", false⟩

/-- Issue pushed when a merge is in progress. -/
def mergeInProgressIssue : FastPushIssue := ⟨"merge-in-progress", false⟩

/-- Issue pushed when no usable origin remote is configured. -/
def noRemoteIssue : FastPushIssue := ⟨"no-remote", true⟩

/-- Issue pushed when the tracked remote branch no longer exists. -/
def upstreamMissingIssue : FastPushIssue := ⟨"upstream-missing", true⟩

/-- Issue pushed when upstream tracking is configured but broken. -/
def upstreamBrokenIssue : FastPushIssue := ⟨"upstream-broken", true⟩

/-- Issue pushed when the branch is both ahead of and behind its upstream. -/
def branchesDivergedIssue : FastPushIssue := ⟨"branches-diverged", true⟩

/-- Issue pushed when the branch is only behind its upstream. -/
def behindRemoteIssue : FastPushIssue := ⟨"behind-remote", true⟩

/-- Issue pushed when submodules have uncommitted changes. -/
def dirtySubmodulesIssue : FastPushIssue := ⟨"dirty-submodules", false⟩

/-- Issue pushed when the tree is clean, nothing is staged and the branch is
not ahead of its remote. -/
def nothingToDoIssue : FastPushIssue := ⟨"nothing-to-do", false⟩

/-- Issue pushed when HEAD resolves to no symbolic branch ref. -/
def detachedHeadIssue : FastPushIssue := ⟨"detached-head", true⟩

/-- Issue pushed when index.lock exists and is older than five minutes. -/
def staleLockIssue : FastPushIssue := ⟨"stale-lock", true⟩

/-- Issue pushed when index.lock exists and is at most five minutes old. -/
def activeLockIssue : FastPushIssue := ⟨"active-lock", false⟩

/-- Result of `GitService.getBranchDivergence`. -/
structure Divergence where
  ahead : Nat
  behind : Nat
  noUpstream : Bool
deriving DecidableEq, Repr

/-- The repository observables consulted by the diagnostic engine.  Each
field is the result of the corresponding inspector query of `GitService`.
`lockOwnerAlive` records whether the process that created `index.lock` is
still alive: it is part of the environment but is never consulted by the
code (the staleness decision reads only the file's age). -/
structure RepoState where
  /-- Result of `isRepo()`. -/
  isRepoB : Bool
  /-- Result of `getConflicts()`. -/
  conflicts : List String
  /-- Result of `getRebaseStatus()` coerced to its truthiness. -/
  rebaseInProgress : Bool
  /-- Result of `getMergeStatus()` coerced to its truthiness. -/
  mergeInProgress : Bool
  /-- Result of `getRemote()` (may be a sentinel such as "No origin"). -/
  remoteResult : String
  /-- Result of `getBranchDivergence()`. -/
  divergence : Divergence
  /-- Result of `getCurrentBranch()`. -/
  currentBranch : String
  /-- Result of `hasRemoteBranch(currentBranch)`. -/
  remoteBranchExists : Bool
  /-- Names of dirty submodules from `getDirtySubmodules()`. -/
  dirtySubmodules : List String
  /-- Result of `isClean()`. -/
  cleanB : Bool
  /-- Result of `getStagedFiles()`. -/
  stagedFiles : List String
  /-- Output of `git symbolic-ref -q HEAD` (empty when detached). -/
  headSymbolicRef : String
  /-- Whether `git symbolic-ref -q HEAD` threw. -/
  headRefThrows : Bool
  /-- Whether `<git-dir>/index.lock` exists. -/
  lockExists : Bool
  /-- `Date.now() - stat.mtimeMs` for the lock file, in milliseconds. -/
  lockAgeMs : Int
  /-- Whether the process owning the lock is alive (never read). -/
  lockOwnerAlive : Bool
deriving DecidableEq, Repr

/-- `hasRemote` as computed in step 5 of `diagnoseFastPushIssues`:
`!!remote && remote !== 'No origin' && remote !== 'Unknown' && remote !== 'No Repo'`. -/
def hasRemote (s : RepoState) : Bool :=
  s.remoteResult != "" && s.remoteResult != "No origin" &&
  s.remoteResult != "Unknown" && s.remoteResult != "No Repo"

/-- Step 6 of `diagnoseFastPushIssues` (run only when a remote exists):
upstream-missing / upstream-broken / branches-diverged / behind-remote. -/
def divergenceIssues (s : RepoState) : List FastPushIssue :=
  if s.divergence.noUpstream then
    if !s.remoteBranchExists then [upstreamMissingIssue] else [upstreamBrokenIssue]
  else if s.divergence.ahead > 0 && s.divergence.behind > 0 then [branchesDivergedIssue]
  else if s.divergence.behind > 0 then [behindRemoteIssue]
  else []

/-- Step 8 of `diagnoseFastPushIssues`: the `nothing-to-do` check, guarded
by a clean tree, an empty staged list, a remote, and `ahead === 0`. -/
def nothingToDoIssues (s : RepoState) : List FastPushIssue :=
  if s.cleanB && s.stagedFiles.length == 0 then
    if hasRemote s then
      if s.divergence.ahead == 0 then [nothingToDoIssue] else []
    else []
  else []

/-- Step 9 of `diagnoseFastPushIssues`: detached HEAD, pushed both when the
symbolic-ref output is empty and when the command throws. -/
def detachedHeadIssues (s : RepoState) : List FastPushIssue :=
  if s.headRefThrows then [detachedHeadIssue]
  else if s.headSymbolicRef == "" then [detachedHeadIssue] else []

/-- `GitService.checkForLockFiles`: if `index.lock` exists, push
`stale-lock` when its age exceeds five minutes, else `active-lock`. -/
def checkForLockFiles (s : RepoState) : List FastPushIssue :=
  if s.lockExists then
    if s.lockAgeMs > 5 * 60 * 1000 then [staleLockIssue] else [activeLockIssue]
  else []

/-- `GitService.diagnoseFastPushIssues`: short-circuits to `[no-repo]` for a
non-repository, otherwise concatenates the checks in source order. -/
def diagnoseFastPushIssues (s : RepoState) : List FastPushIssue :=
  if !s.isRepoB then [noRepoIssue]
  else
    (if s.conflicts.length > 0 then [mergeConflictsIssue] else [])
    ++ (if s.rebaseInProgress then [rebaseInProgressIssue] else [])
    ++ (if s.mergeInProgress then [mergeInProgressIssue] else [])
    ++ (if !hasRemote s then [noRemoteIssue] else [])
    ++ (if hasRemote s then divergenceIssues s else [])
    ++ (if s.dirtySubmodules.length > 0 then [dirtySubmodulesIssue] else [])
    ++ nothingToDoIssues s
    ++ detachedHeadIssues s
    ++ checkForLockFiles s

/-- The inspector queries performed by `diagnoseFastPushIssues`, in source
order; a non-repository performs only the `isRepo` probe. -/
def diagnoseTrace (s : RepoState) : List String :=
  if !s.isRepoB then ["isRepo"]
  else
    ["isRepo", "getConflicts", "getRebaseStatus", "getMergeStatus", "getRemote"]
    ++ (if hasRemote s then
          ["getBranchDivergence"]
          ++ (if s.divergence.noUpstream then ["getCurrentBranch", "hasRemoteBranch"] else [])
        else [])
    ++ ["getDirtySubmodules", "isClean", "getStagedFiles"]
    ++ (if s.cleanB && s.stagedFiles.length == 0 && hasRemote s then ["getBranchDivergence"] else [])
    ++ ["symbolicRefHead", "checkForLockFiles"]

/-- Whether an issue with the given id occurs in a list. -/
def hasIssue (issues : List FastPushIssue) (i : String) : Bool :=
  issues.any (fun x => x.id == i)

/-! ## Orchestrator slices (`MessageHandler.handleFastPushExecute`) -/

/-- A character allowed by the branch-name whitelist regex: ASCII letters,
digits, underscore, forward slash, hyphen. -/
def validBranchChar (c : Char) : Bool :=
  c.isAlpha || c.isDigit || c == '_' || c == '/' || c == '-'

/-- JavaScript whitelist regex test on the branch name: non-empty and every
character in the whitelist of `validBranchChar`. -/
def validBranchPattern (branch : String) : Bool :=
  branch != "" && branch.data.all validBranchChar

/-- Branch validation of `handleFastPushExecute` step 2: empty, placeholder
or non-whitelisted branch names are silently replaced by `'main'`. -/
def normalizeBranch (branch : String) : String :=
  if branch == "" || branch == "Loading..." || strStartsWith branch "Loading" ||
      !validBranchPattern branch then
    "main"
  else branch

/-- The relevance filter of `handleFastPushExecute` step 5: drops issues
already handled (`no-repo`, `no-remote`) and, for a repository with no
commits, the four expected fresh-repo issues. -/
def relevantFilter (hasCommits : Bool) (i : FastPushIssue) : Bool :=
  if i.id == "no-repo" || i.id == "no-remote" then false
  else if !hasCommits &&
      (i.id == "detached-head" || i.id == "upstream-missing" ||
       i.id == "upstream-broken" || i.id == "nothing-to-do") then false
  else true

/-- `issues.filter(...)` producing the relevant issue set fed to
`resolveIssuesInteractively`. -/
def relevantIssues (hasCommits : Bool) (issues : List FastPushIssue) : List FastPushIssue :=
  issues.filter (relevantFilter hasCommits)

/-- Step 7 of `handleFastPushExecute`: a failed commit whose message is in
the "nothing to commit" family is treated as success; any other failure
propagates. -/
def commitStep (commitResult : Except String Unit) : Except String Unit :=
  match commitResult with
  | Except.ok _ => Except.ok ()
  | Except.error msg =>
    if isNothingToCommitMsg msg then Except.ok () else Except.error msg

/-- Environment of the commit-and-push tail of the flow: the outcomes the
external world (git, the user modal) would deliver at each step. -/
structure PushEnv where
  /-- Outcome of `gitService.commit(...)`. -/
  commitResult : Except String Unit
  /-- Outcome of the first `gitService.push()`. -/
  firstPush : Except String Unit
  /-- Whether the user picks 'Pull & Retry' in the rejection modal. -/
  userAcceptsRetry : Bool
  /-- Outcome of `gitService.pullRebase()`. -/
  pullRebaseResult : Except String Unit
  /-- Outcome of the retry `gitService.push()`. -/
  retryPush : Except String Unit

/-- Result of the push phase together with how many pushes and
pull-rebases were attempted. -/
structure PushOutcome where
  result : Except String Unit
  pushes : Nat
  rebases : Nat

/-- Step 9 of `handleFastPushExecute`: push; on a rejection-family error
offer one pull-rebase-and-retry; a second failure propagates unhandled; a
declined retry raises 'Push cancelled by user after rejection.'. -/
def pushWithRecovery (env : PushEnv) : PushOutcome :=
  match env.firstPush with
  | Except.ok _ => ⟨Except.ok (), 1, 0⟩
  | Except.error msg =>
    if isRejectionMsg msg then
      if env.userAcceptsRetry then
        match env.pullRebaseResult with
        | Except.error m => ⟨Except.error m, 1, 1⟩
        | Except.ok _ =>
          match env.retryPush with
          | Except.ok _ => ⟨Except.ok (), 2, 1⟩
          | Except.error m2 => ⟨Except.error m2, 2, 1⟩
      else ⟨Except.error "Push cancelled by user after rejection.", 1, 0⟩
    else ⟨Except.error msg, 1, 0⟩

/-- Steps 7–9 of `handleFastPushExecute` composed: tolerant commit, then
push with rejection recovery; a non-tolerated commit failure aborts the
flow before any push. -/
def fastPushCommitAndPush (env : PushEnv) : PushOutcome :=
  match commitStep env.commitResult with
  | Except.error m => ⟨Except.error m, 0, 0⟩
  | Except.ok _ => pushWithRecovery env

/-! ## Remediation protocol (`resolveIssuesInteractively` /
`handleFixableIssue`) -/

/-- The user's answers to the remediation prompts, plus the outcomes of the
auto-fix git operations they may trigger. -/
structure UserChoices where
  /-- Per issue id: the user clicks 'I Fixed It — Continue' on the blocking
  prompt. -/
  blockingContinue : String → Bool
  /-- User clicks 'Pull with Rebase' for diverged/behind issues. -/
  acceptPullRebase : Bool
  /-- `pullRebase()` succeeds. -/
  pullRebaseOk : Bool
  /-- User supplies a branch name at the detached-HEAD prompt. -/
  branchNameGiven : Bool
  /-- `createBranchFromDetachedHead` succeeds. -/
  createBranchOk : Bool
  /-- Error text when `createBranchFromDetachedHead` throws. -/
  createBranchErr : String
  /-- User clicks 'Remove Lock File'. -/
  acceptRemoveLock : Bool
  /-- `removeStaleLockFile()` returns true. -/
  removeLockOk : Bool
  /-- User clicks 'Continue — Push Will Create It'. -/
  acceptUpstreamMissing : Bool
  /-- User clicks 'Fix Upstream Tracking'. -/
  acceptFixUpstream : Bool
  /-- `fixUpstreamTracking()` succeeds. -/
  fixUpstreamOk : Bool
  /-- Per issue id: the user clicks 'Continue Anyway' on the default
  prompt. -/
  continueAnyway : String → Bool

/-- `MessageHandler.handleFixableIssue`: the per-id switch run for each
auto-fixable issue.  `Except.error` models an exception escaping the
handler (only `createBranchFromDetachedHead` can throw out of it);
`Except.ok b` is its boolean resolution outcome. -/
def handleFixableIssue (u : UserChoices) (i : FastPushIssue) : Except String Bool :=
  if i.id == "branches-diverged" || i.id == "behind-remote" then
    Except.ok (u.acceptPullRebase && u.pullRebaseOk)
  else if i.id == "detached-head" then
    if u.branchNameGiven then
      if u.createBranchOk then Except.ok true else Except.error u.createBranchErr
    else Except.ok false
  else if i.id == "stale-lock" then
    Except.ok (u.acceptRemoveLock && u.removeLockOk)
  else if i.id == "upstream-missing" then
    Except.ok u.acceptUpstreamMissing
  else if i.id == "upstream-broken" then
    Except.ok (u.acceptFixUpstream && u.fixUpstreamOk)
  else if i.id == "nothing-to-do" then
    Except.ok false
  else
    Except.ok (u.continueAnyway i.id)

/-- The fixable-issue loop of `resolveIssuesInteractively`: runs
`handleFixableIssue` on each issue in order, returning false on the first
unresolved issue and propagating a thrown exception. -/
def resolveFixables (u : UserChoices) : List FastPushIssue → Except String Bool
  | [] => Except.ok true
  | i :: rest =>
    match handleFixableIssue u i with
    | Except.error e => Except.error e
    | Except.ok false => Except.ok false
    | Except.ok true => resolveFixables u rest

/-- `MessageHandler.resolveIssuesInteractively`: partitions into blocking
(`!autoFixable`) and fixable issues; every blocking issue must be answered
'I Fixed It — Continue' (the loop returns false at the first refusal, which
coincides with requiring all answers); then each fixable issue is handled
in order. -/
def resolveIssuesInteractively (u : UserChoices) (issues : List FastPushIssue) :
    Except String Bool :=
  let blocking := issues.filter (fun i => !i.autoFixable)
  let fixable := issues.filter (fun i => i.autoFixable)
  if blocking.all (fun i => u.blockingContinue i.id) then resolveFixables u fixable
  else Except.ok false

/-! ## `GitService.setRemote` -/

/-- Environment for `setRemote`: outcomes of the git commands and of the
VS Code bridge it may invoke. -/
structure RemoteEnv where
  /-- `git remote get-url origin` succeeds (an origin exists). -/
  getUrlOk : Bool
  /-- `git remote set-url origin <url>` succeeds. -/
  setUrlOk : Bool
  /-- A VS Code bridge repository object is available. -/
  bridgeRepo : Bool
  /-- `repo.addRemote('origin', url)` succeeds. -/
  bridgeAddOk : Bool
  /-- `git remote add origin <url>` succeeds. -/
  cliAddOk : Bool
  /-- Error text when `git remote add` throws. -/
  cliAddErr : String
deriving DecidableEq, Repr

/-- The fallback path of `setRemote` (the catch block): try the bridge's
`addRemote`, then CLI `remote add`; `tr` is the git-command trace
accumulated so far. -/
def setRemoteFallback (env : RemoteEnv) (url : String) (tr : List String) :
    Except String String × List String :=
  if env.bridgeRepo && env.bridgeAddOk then (Except.ok "Remote URL set", tr)
  else if env.cliAddOk then
    (Except.ok "Remote URL updated", tr ++ ["git remote add origin " ++ url])
  else
    (Except.error ("Failed to set remote: " ++ env.cliAddErr),
     tr ++ ["git remote add origin " ++ url])

/-- `GitService.setRemote`: rejects URLs that do not start with `https://`
or `git@` before running any git command; otherwise updates (or adds) the
origin remote.  Returns the result together with the trace of git commands
invoked. -/
def setRemote (env : RemoteEnv) (url : String) : Except String String × List String :=
  if !(strStartsWith url "https://" || strStartsWith url "git@") then
    (Except.error "Invalid remote URL. Must start with https:// or git@", [])
  else if env.getUrlOk then
    if env.setUrlOk then
      (Except.ok "Remote URL updated",
       ["git remote get-url origin", "git remote set-url origin " ++ url])
    else
      setRemoteFallback env url
        ["git remote get-url origin", "git remote set-url origin " ++ url]
  else
    setRemoteFallback env url ["git remote get-url origin"]

/-! ## Auxiliary definitions and sample inputs -/

/-- The lock-related issues occurring in an issue list. -/
def lockIssuesOf (l : List FastPushIssue) : List FastPushIssue :=
  l.filter (fun i => i.id == "stale-lock" || i.id == "active-lock")

/-- A user who accepts every remediation prompt, with every auto-fix
operation succeeding. -/
def allContinueChoices : UserChoices :=
  ⟨fun _ => true, true, true, true, true, "", true, true, true, true, true,
   fun _ => true⟩

/-- A directory that is not a git repository. -/
def stNoRepo : RepoState :=
  ⟨false, [], false, false, "", ⟨0, 0, false⟩, "", false, [], true, [], "",
   false, false, 0, false⟩

/-- A clean repository with no origin remote configured. -/
def stCleanNoRemote : RepoState :=
  ⟨true, [], false, false, "No origin", ⟨0, 0, false⟩, "main", false, [],
   true, [], "refs/heads/main", false, false, 0, false⟩

/-- A clean repository with a remote and `ahead = 0`. -/
def stNothingToDo : RepoState :=
  ⟨true, [], false, false, "https://github.com/u/r.git", ⟨0, 0, false⟩,
   "main", true, [], true, [], "refs/heads/main", false, false, 0, false⟩

/-- A dirty repository with a remote, valid upstream, `ahead = 3`,
`behind = 0`. -/
def stAheadOnly : RepoState :=
  ⟨true, [], false, false, "https://github.com/u/r.git", ⟨3, 0, false⟩,
   "main", true, [], false, [], "refs/heads/main", false, false, 0, false⟩

/-- A repository with a ten-minute-old `index.lock` whose owning process is
still alive. -/
def stStaleLock : RepoState :=
  ⟨true, [], false, false, "https://github.com/u/r.git", ⟨1, 0, false⟩,
   "main", true, [], false, [], "refs/heads/main", false, true, 600000, true⟩

/-- A push environment whose first and retry pushes are both rejected and
whose user accepts the retry. -/
def envTwoRejections : PushEnv :=
  ⟨Except.ok (), Except.error "! [rejected] main -> main (fetch first)", true,
   Except.ok (), Except.error "error: failed to push some refs"⟩

/-- A flow environment whose commit fails with a tolerated message. -/
def envCommitTolerated : PushEnv :=
  ⟨Except.error "nothing to commit, working tree clean", Except.ok (), false,
   Except.ok (), Except.ok ()⟩

/-- A flow environment whose commit fails with a non-tolerated message. -/
def envCommitFatal : PushEnv :=
  ⟨Except.error "pre-commit hook exited with code 1", Except.ok (), false,
   Except.ok (), Except.ok ()⟩

/-- A remote environment where origin exists and every git command
succeeds. -/
def envRemoteSample : RemoteEnv := ⟨true, true, false, false, true, ""⟩

/-! ## Helper lemmas -/

/-- `hasIssue` distributes over list concatenation. -/
lemma hasIssue_append (a b : List FastPushIssue) (i : String) :
    hasIssue (a ++ b) i = (hasIssue a i || hasIssue b i) := by
  simp [hasIssue]

/-- `hasIssue` on a conditional singleton segment. -/
lemma hasIssue_ite_single (c : Prop) [Decidable c] (x : FastPushIssue) (i : String) :
    hasIssue (if c then [x] else []) i = (decide c && (x.id == i)) := by
  split_ifs with h <;> simp [hasIssue, h]

/-- A list none of whose members carries the id `i` has no issue `i`. -/
lemma hasIssue_of_forall_ne (l : List FastPushIssue) (i : String)
    (h : ∀ x ∈ l, x.id ≠ i) : hasIssue l i = false := by
  simp only [hasIssue, List.any_eq_false]
  intro x hx
  simpa using h x hx

/-- Every member of `divergenceIssues s` is one of the four divergence
issues. -/
lemma divergenceIssues_shape (s : RepoState) : ∀ x ∈ divergenceIssues s,
    x = upstreamMissingIssue ∨ x = upstreamBrokenIssue ∨
    x = branchesDivergedIssue ∨ x = behindRemoteIssue := by
  intro x hx
  unfold divergenceIssues at hx
  split_ifs at hx <;> simp_all

/-- Every member of `nothingToDoIssues s` is the `nothing-to-do` issue. -/
lemma nothingToDoIssues_shape (s : RepoState) :
    ∀ x ∈ nothingToDoIssues s, x = nothingToDoIssue := by
  intro x hx
  unfold nothingToDoIssues at hx
  split_ifs at hx <;> simp_all

/-- Every member of `detachedHeadIssues s` is the `detached-head` issue. -/
lemma detachedHeadIssues_shape (s : RepoState) :
    ∀ x ∈ detachedHeadIssues s, x = detachedHeadIssue := by
  intro x hx
  unfold detachedHeadIssues at hx
  split_ifs at hx <;> simp_all

/-- Every member of `checkForLockFiles s` is one of the two lock issues. -/
lemma checkForLockFiles_shape (s : RepoState) :
    ∀ x ∈ checkForLockFiles s, x = staleLockIssue ∨ x = activeLockIssue := by
  intro x hx
  unfold checkForLockFiles at hx
  split_ifs at hx <;> simp_all

example : hasIssue (diagnoseFastPushIssues
    ⟨true, [], false, false, "No origin", ⟨0, 0, false⟩, "main", false, [], true, [],
     "refs/heads/main", false, false, 0, false⟩) "nothing-to-do" = false := by decide

example : diagnoseFastPushIssues
    ⟨false, [], false, false, "", ⟨0, 0, false⟩, "", false, [], true, [], "", false,
     false, 0, false⟩ = [noRepoIssue] := by decide

example : normalizeBranch "Loading branches" = "main" := by decide

example : normalizeBranch "feature/x-1" = "feature/x-1" := by decide

example : (setRemote ⟨true, true, false, false, true, ""⟩ "ftp://x").2 = [] := by decide

example : isRejectionMsg "! [rejected] main -> main (fetch first)" = true := by decide

/-! ## Claim theorems -/

/-- C1: for every directory that is not a git repository,
`diagnoseFastPushIssues` returns exactly the single `no-repo` issue and
performs no inspector query beyond the `isRepo` probe. -/
theorem claim_C1_no_repo_short_circuit (s : RepoState) (h : s.isRepoB = false) :
    diagnoseFastPushIssues s = [noRepoIssue] ∧ diagnoseTrace s = ["isRepo"] := by
  simp [diagnoseFastPushIssues, diagnoseTrace, h]

/-- C1 witness: the short-circuit at a concrete non-repository state. -/
theorem claim_C1_witness :
    diagnoseFastPushIssues stNoRepo = [noRepoIssue] ∧
    diagnoseTrace stNoRepo = ["isRepo"] :=
  claim_C1_no_repo_short_circuit stNoRepo rfl

/-- C8: a branch name that is empty, equals 'Loading...', starts with
'Loading', or contains a character outside the whitelist is silently
normalized to 'main'; normalization never rejects, it either keeps the
branch or substitutes 'main'. -/
theorem claim_C8_branch_normalization (branch : String)
    (h : branch = "" ∨ branch = "Loading..." ∨
         strStartsWith branch "Loading" = true ∨
         (∃ c ∈ branch.data, validBranchChar c = false)) :
    normalizeBranch branch = "main" ∧
    (∀ b : String, normalizeBranch b = b ∨ normalizeBranch b = "main") := by
  constructor
  · unfold normalizeBranch
    rcases h with h | h | h | ⟨c, hc, hv⟩
    · subst h; rfl
    · subst h; rfl
    · simp [h]
    · have hp : validBranchPattern branch = false := by
        unfold validBranchPattern
        have : branch.data.all validBranchChar = false :=
          List.all_eq_false.mpr ⟨c, hc, by simp [hv]⟩
        simp [this]
      simp [hp]
  · intro b
    unfold normalizeBranch
    split_ifs <;> simp

/-- C8 witness: the placeholder branch 'Loading...' is normalized to
'main'. -/
theorem claim_C8_witness : normalizeBranch "Loading..." = "main" :=
  (claim_C8_branch_normalization "Loading..." (Or.inr (Or.inl rfl))).1

/-- C10: `setRemote` rejects a URL that starts with neither `https://` nor
`git@` with the invalid-URL error before invoking any git command (the
command trace is empty, so the remote configuration is untouched). -/
theorem claim_C10_setRemote_url_guard (env : RemoteEnv) (url : String)
    (h : (strStartsWith url "https://" || strStartsWith url "git@") = false) :
    (setRemote env url).1 =
      Except.error "Invalid remote URL. Must start with https:// or git@" ∧
    (setRemote env url).2 = [] := by
  simp [setRemote, h]

/-- C10 witness: rejection of a concrete `ftp://` URL with an empty command
trace. -/
theorem claim_C10_witness :
    (setRemote envRemoteSample "ftp://example.com/r.git").1 =
      Except.error "Invalid remote URL. Must start with https:// or git@" ∧
    (setRemote envRemoteSample "ftp://example.com/r.git").2 = [] :=
  claim_C10_setRemote_url_guard envRemoteSample "ftp://example.com/r.git" (by decide)

/-- C2: when the first push is rejected, the user accepts the retry, the
pull-rebase succeeds and the retry push is rejected again, the flow performs
exactly one pull-rebase and exactly two pushes and fails with the retry
error; moreover no execution of the push phase ever attempts a third push
or a second rebase. -/
theorem claim_C2_bounded_rebase_retry (env : PushEnv) (m1 m2 : String)
    (h1 : env.firstPush = Except.error m1) (h2 : isRejectionMsg m1 = true)
    (h3 : env.userAcceptsRetry = true)
    (h4 : env.pullRebaseResult = Except.ok ())
    (h5 : env.retryPush = Except.error m2) (_h6 : isRejectionMsg m2 = true) :
    pushWithRecovery env = ⟨Except.error m2, 2, 1⟩ ∧
    (∀ e : PushEnv, (pushWithRecovery e).pushes ≤ 2 ∧
      (pushWithRecovery e).rebases ≤ 1) := by
  constructor
  · simp [pushWithRecovery, h1, h2, h3, h4, h5]
  · intro e
    unfold pushWithRecovery
    cases hf : e.firstPush with
    | ok _ => simp
    | error msg =>
      by_cases hr : isRejectionMsg msg <;>
        simp only [hr, if_true, if_false, Bool.false_eq_true, ite_false]
      · by_cases hu : e.userAcceptsRetry = true <;>
          simp only [hu, if_true, ite_false, Bool.false_eq_true]
        · cases hp : e.pullRebaseResult with
          | error m => simp
          | ok _ => cases hrp : e.retryPush <;> simp
        · simp [hu]
      · simp

/-- C2 witness: the double-rejection scenario at a concrete environment. -/
theorem claim_C2_witness :
    pushWithRecovery envTwoRejections =
      ⟨Except.error "error: failed to push some refs", 2, 1⟩ :=
  (claim_C2_bounded_rebase_retry envTwoRejections
    "! [rejected] main -> main (fetch first)"
    "error: failed to push some refs" rfl (by decide) rfl rfl rfl (by decide)).1

/-- C5: a commit failure in the "nothing to commit" family is treated as
success and the flow proceeds to the push phase (which always attempts at
least one push); a commit failure with any other message aborts the flow
with that error before any push. -/
theorem claim_C5_tolerant_commit (env : PushEnv) (msg : String) :
    (env.commitResult = Except.error msg → isNothingToCommitMsg msg = true →
      fastPushCommitAndPush env = pushWithRecovery env) ∧
    (env.commitResult = Except.error msg → isNothingToCommitMsg msg = false →
      fastPushCommitAndPush env = ⟨Except.error msg, 0, 0⟩) ∧
    (∀ e : PushEnv, 1 ≤ (pushWithRecovery e).pushes) := by
  refine ⟨?_, ?_, ?_⟩
  · intro h1 h2
    simp [fastPushCommitAndPush, commitStep, h1, h2]
  · intro h1 h2
    simp [fastPushCommitAndPush, commitStep, h1, h2]
  · intro e
    unfold pushWithRecovery
    cases hf : e.firstPush with
    | ok _ => simp
    | error msg =>
      by_cases hr : isRejectionMsg msg <;>
        simp only [hr, if_true, if_false, Bool.false_eq_true, ite_false]
      · by_cases hu : e.userAcceptsRetry = true <;>
          simp only [hu, if_true, ite_false, Bool.false_eq_true]
        · cases hp : e.pullRebaseResult with
          | error m => simp
          | ok _ => cases hrp : e.retryPush <;> simp
        · simp [hu]
      · simp

/-- C5 witness: a tolerated commit failure proceeds to the push phase and a
fatal one aborts with its own error, at concrete environments. -/
theorem claim_C5_witness :
    fastPushCommitAndPush envCommitTolerated = pushWithRecovery envCommitTolerated ∧
    fastPushCommitAndPush envCommitFatal =
      ⟨Except.error "pre-commit hook exited with code 1", 0, 0⟩ :=
  ⟨(claim_C5_tolerant_commit envCommitTolerated
      "nothing to commit, working tree clean").1 rfl (by decide),
   (claim_C5_tolerant_commit envCommitFatal
      "pre-commit hook exited with code 1").2.1 rfl (by decide)⟩

/-- C6: for a repository with no commits (`hasCommits = false`), no issue in
the relevant set fed to remediation has id `detached-head`,
`upstream-missing`, `upstream-broken` or `nothing-to-do`, whatever the
diagnostic engine emitted. -/
theorem claim_C6_fresh_repo_filtering (issues : List FastPushIssue)
    (i : FastPushIssue) (h : i ∈ relevantIssues false issues) :
    i.id ≠ "detached-head" ∧ i.id ≠ "upstream-missing" ∧
    i.id ≠ "upstream-broken" ∧ i.id ≠ "nothing-to-do" := by
  have hf : relevantFilter false i = true := by
    have := List.mem_filter.mp h
    exact this.2
  unfold relevantFilter at hf
  refine ⟨?_, ?_, ?_, ?_⟩ <;> intro he <;> simp [he] at hf

/-- C6 witness: in a concrete diagnostic output containing `detached-head`
and `nothing-to-do`, the surviving relevant issue is none of the four
filtered ids. -/
theorem claim_C6_witness :
    mergeConflictsIssue ∈
      relevantIssues false [detachedHeadIssue, mergeConflictsIssue, nothingToDoIssue] ∧
    mergeConflictsIssue.id ≠ "detached-head" ∧
    mergeConflictsIssue.id ≠ "nothing-to-do" := by
  have hm : mergeConflictsIssue ∈
      relevantIssues false [detachedHeadIssue, mergeConflictsIssue, nothingToDoIssue] := by
    decide
  have hc := claim_C6_fresh_repo_filtering
    [detachedHeadIssue, mergeConflictsIssue, nothingToDoIssue] mergeConflictsIssue hm
  exact ⟨hm, hc.1, hc.2.2.2⟩

/-- Membership of `nothing-to-do` in its own segment, characterized by the
guarding conditions. -/
lemma mem_nothingToDoIssues (s : RepoState) :
    hasIssue (nothingToDoIssues s) "nothing-to-do" = true ↔
      (s.cleanB = true ∧ s.stagedFiles = [] ∧ hasRemote s = true ∧
       s.divergence.ahead = 0) := by
  unfold nothingToDoIssues
  split_ifs with h1 h2 h3 <;>
    simp_all [hasIssue, nothingToDoIssue, List.length_eq_zero]

/-- The divergence segment never contains `nothing-to-do`. -/
lemma divergence_no_nothingToDo (s : RepoState) :
    hasIssue (divergenceIssues s) "nothing-to-do" = false :=
  hasIssue_of_forall_ne _ _ (fun x hx => by
    rcases divergenceIssues_shape s x hx with h | h | h | h <;> subst h <;> decide)

/-- The detached-HEAD segment never contains `nothing-to-do`. -/
lemma detached_no_nothingToDo (s : RepoState) :
    hasIssue (detachedHeadIssues s) "nothing-to-do" = false :=
  hasIssue_of_forall_ne _ _ (fun x hx => by
    have := detachedHeadIssues_shape s x hx; subst this; decide)

/-- The lock segment never contains `nothing-to-do`. -/
lemma lock_no_nothingToDo (s : RepoState) :
    hasIssue (checkForLockFiles s) "nothing-to-do" = false :=
  hasIssue_of_forall_ne _ _ (fun x hx => by
    rcases checkForLockFiles_shape s x hx with h | h <;> subst h <;> decide)

/-- `hasIssue` on a conditional list segment. -/
lemma hasIssue_ite_list (c : Prop) [Decidable c] (l : List FastPushIssue)
    (i : String) :
    hasIssue (if c then l else []) i = (decide c && hasIssue l i) := by
  split_ifs with h <;> simp [hasIssue, h]

/-- A conditional singleton segment whose issue id differs from `i` never
contains `i`. -/
lemma hasIssue_ite_single_ne (c : Prop) [Decidable c] (x : FastPushIssue)
    (i : String) (hx : (x.id == i) = false) :
    hasIssue (if c then [x] else []) i = false := by
  rw [hasIssue_ite_single, hx, Bool.and_false]

/-- A conditional list segment without issue `i` never contains `i`. -/
lemma hasIssue_ite_list_false (c : Prop) [Decidable c]
    (l : List FastPushIssue) (i : String) (hl : hasIssue l i = false) :
    hasIssue (if c then l else []) i = false := by
  rw [hasIssue_ite_list, hl, Bool.and_false]

/-- C3 amended: for a repository, `nothing-to-do` is emitted iff the tree is
clean, nothing is staged, a remote exists, and `ahead = 0`. -/
theorem claim_C3_amended_nothing_to_do (s : RepoState) (h : s.isRepoB = true) :
    hasIssue (diagnoseFastPushIssues s) "nothing-to-do" = true ↔
      (s.cleanB = true ∧ s.stagedFiles = [] ∧ hasRemote s = true ∧
       s.divergence.ahead = 0) := by
  rw [← mem_nothingToDoIssues s]
  have c1 : hasIssue (if s.conflicts.length > 0 then [mergeConflictsIssue] else [])
      "nothing-to-do" = false := hasIssue_ite_single_ne _ _ _ (by decide)
  have c2 : hasIssue (if s.rebaseInProgress then [rebaseInProgressIssue] else [])
      "nothing-to-do" = false := hasIssue_ite_single_ne _ _ _ (by decide)
  have c3 : hasIssue (if s.mergeInProgress then [mergeInProgressIssue] else [])
      "nothing-to-do" = false := hasIssue_ite_single_ne _ _ _ (by decide)
  have c4 : hasIssue (if !hasRemote s then [noRemoteIssue] else [])
      "nothing-to-do" = false := hasIssue_ite_single_ne _ _ _ (by decide)
  have c5 : hasIssue (if hasRemote s then divergenceIssues s else [])
      "nothing-to-do" = false :=
    hasIssue_ite_list_false _ _ _ (divergence_no_nothingToDo s)
  have c6 : hasIssue (if s.dirtySubmodules.length > 0 then [dirtySubmodulesIssue]
      else []) "nothing-to-do" = false := hasIssue_ite_single_ne _ _ _ (by decide)
  unfold diagnoseFastPushIssues
  have hnot : ¬((!s.isRepoB) = true) := by simp [h]
  rw [if_neg hnot]
  simp only [hasIssue_append, c1, c2, c3, c4, c5, c6,
    detached_no_nothingToDo, lock_no_nothingToDo, Bool.false_or, Bool.or_false]

/-- C3 witness: at a clean repository with a remote and `ahead = 0` the
issue is emitted. -/
theorem claim_C3_witness :
    hasIssue (diagnoseFastPushIssues stNothingToDo) "nothing-to-do" = true :=
  (claim_C3_amended_nothing_to_do stNothingToDo rfl).mpr
    ⟨rfl, rfl, rfl, rfl⟩

/-- C3 counterexample: a clean repository with nothing staged and no remote
satisfies the claim's conditions (the remote clause holds vacuously), yet
the engine does not emit `nothing-to-do`. -/
theorem claim_C3_counterexample :
    stCleanNoRemote.isRepoB = true ∧
    stCleanNoRemote.cleanB = true ∧ stCleanNoRemote.stagedFiles = [] ∧
    (hasRemote stCleanNoRemote = true → stCleanNoRemote.divergence.ahead = 0) ∧
    hasIssue (diagnoseFastPushIssues stCleanNoRemote) "nothing-to-do" = false := by
  decide

/-- The `nothing-to-do` segment contains no other id. -/
lemma nothingToDo_seg_ne (s : RepoState) (i : String)
    (hi : ("nothing-to-do" == i) = false) :
    hasIssue (nothingToDoIssues s) i = false :=
  hasIssue_of_forall_ne _ _ (fun x hx => by
    have hxe := nothingToDoIssues_shape s x hx
    subst hxe
    simpa using hi)

/-- The detached-HEAD segment contains no other id. -/
lemma detached_seg_ne (s : RepoState) (i : String)
    (hi : ("detached-head" == i) = false) :
    hasIssue (detachedHeadIssues s) i = false :=
  hasIssue_of_forall_ne _ _ (fun x hx => by
    have hxe := detachedHeadIssues_shape s x hx
    subst hxe
    simpa using hi)

/-- The lock segment contains only the two lock ids. -/
lemma lock_seg_ne (s : RepoState) (i : String)
    (h1 : ("stale-lock" == i) = false) (h2 : ("active-lock" == i) = false) :
    hasIssue (checkForLockFiles s) i = false :=
  hasIssue_of_forall_ne _ _ (fun x hx => by
    rcases checkForLockFiles_shape s x hx with hxe | hxe <;> subst hxe
    · simpa using h1
    · simpa using h2)

/-- For a repository with a remote, membership of `i` in the full diagnosis
reduces to membership in the divergence segment, provided no other segment
can carry `i`. -/
lemma hasIssue_diagnose_eq_divergence (s : RepoState) (i : String)
    (h : s.isRepoB = true) (hr : hasRemote s = true)
    (n1 : ("merge-conflicts" == i) = false)
    (n2 : ("rebase-in-progress" == i) = false)
    (n3 : ("merge-in-progress" == i) = false)
    (n4 : ("no-remote" == i) = false)
    (n5 : ("dirty-submodules" == i) = false)
    (n6 : ("nothing-to-do" == i) = false)
    (n7 : ("detached-head" == i) = false)
    (n8 : ("stale-lock" == i) = false)
    (n9 : ("active-lock" == i) = false) :
    hasIssue (diagnoseFastPushIssues s) i = hasIssue (divergenceIssues s) i := by
  have c1 : hasIssue (if s.conflicts.length > 0 then [mergeConflictsIssue] else [])
      i = false := hasIssue_ite_single_ne _ _ _ n1
  have c2 : hasIssue (if s.rebaseInProgress then [rebaseInProgressIssue] else [])
      i = false := hasIssue_ite_single_ne _ _ _ n2
  have c3 : hasIssue (if s.mergeInProgress then [mergeInProgressIssue] else [])
      i = false := hasIssue_ite_single_ne _ _ _ n3
  have c4 : hasIssue (if !hasRemote s then [noRemoteIssue] else [])
      i = false := hasIssue_ite_single_ne _ _ _ n4
  have c6 : hasIssue (if s.dirtySubmodules.length > 0 then [dirtySubmodulesIssue]
      else []) i = false := hasIssue_ite_single_ne _ _ _ n5
  unfold diagnoseFastPushIssues
  have hnot : ¬((!s.isRepoB) = true) := by simp [h]
  rw [if_neg hnot]
  simp only [hasIssue_append, c1, c2, c3, c4, c6,
    nothingToDo_seg_ne s i n6, detached_seg_ne s i n7, lock_seg_ne s i n8 n9,
    Bool.false_or, Bool.or_false, if_pos hr]

/-- With a valid upstream, `branches-diverged` is in the divergence segment
iff the branch is both ahead and behind. -/
lemma mem_divergence_diverged (s : RepoState)
    (hu : s.divergence.noUpstream = false) :
    hasIssue (divergenceIssues s) "branches-diverged" = true ↔
      0 < s.divergence.ahead ∧ 0 < s.divergence.behind := by
  unfold divergenceIssues
  rw [if_neg (by simp [hu])]
  split_ifs with hab hb
  · simp only [Bool.and_eq_true, decide_eq_true_eq] at hab
    have e : hasIssue [branchesDivergedIssue] "branches-diverged" = true := by decide
    rw [e]
    exact ⟨fun _ => hab, fun _ => rfl⟩
  · have e : hasIssue [behindRemoteIssue] "branches-diverged" = false := by decide
    rw [e]
    simp only [Bool.and_eq_true, decide_eq_true_eq, not_and] at hab
    constructor
    · intro hh; exact absurd hh (by simp)
    · rintro ⟨h1, h2⟩; exfalso; exact hab h1 h2
  · simp only [Bool.and_eq_true, decide_eq_true_eq, not_and] at hab
    constructor
    · intro hh; exact absurd hh (by simp [hasIssue])
    · rintro ⟨h1, h2⟩; exfalso; exact hab h1 h2

/-- With a valid upstream, `behind-remote` is in the divergence segment iff
the branch is behind and not ahead. -/
lemma mem_divergence_behind (s : RepoState)
    (hu : s.divergence.noUpstream = false) :
    hasIssue (divergenceIssues s) "behind-remote" = true ↔
      0 < s.divergence.behind ∧ s.divergence.ahead = 0 := by
  unfold divergenceIssues
  rw [if_neg (by simp [hu])]
  split_ifs with hab hb
  · simp only [Bool.and_eq_true, decide_eq_true_eq] at hab
    have e : hasIssue [branchesDivergedIssue] "behind-remote" = false := by decide
    rw [e]
    constructor
    · intro hh; exact absurd hh (by simp)
    · rintro ⟨h1, h2⟩; exfalso; omega
  · simp only [decide_eq_true_eq] at hb
    simp only [Bool.and_eq_true, decide_eq_true_eq, not_and] at hab
    have e : hasIssue [behindRemoteIssue] "behind-remote" = true := by decide
    rw [e]
    refine ⟨fun _ => ⟨hb, ?_⟩, fun _ => rfl⟩
    by_contra hne
    exact hab (by omega) hb
  · simp only [decide_eq_true_eq] at hb
    constructor
    · intro hh; exact absurd hh (by simp [hasIssue])
    · rintro ⟨h1, h2⟩; exact absurd h1 hb

/-- C4: for a repository with a remote and a valid upstream: ahead-only
(`ahead > 0`, `behind = 0`) emits neither `branches-diverged` nor
`behind-remote`; `branches-diverged` is emitted exactly when both ahead and
behind are positive, and `behind-remote` exactly when behind is positive
and ahead is zero. -/
theorem claim_C4_ahead_only_not_an_issue (s : RepoState)
    (h : s.isRepoB = true) (hr : hasRemote s = true)
    (hu : s.divergence.noUpstream = false) :
    (0 < s.divergence.ahead ∧ s.divergence.behind = 0 →
       hasIssue (diagnoseFastPushIssues s) "branches-diverged" = false ∧
       hasIssue (diagnoseFastPushIssues s) "behind-remote" = false) ∧
    (hasIssue (diagnoseFastPushIssues s) "branches-diverged" = true ↔
       0 < s.divergence.ahead ∧ 0 < s.divergence.behind) ∧
    (hasIssue (diagnoseFastPushIssues s) "behind-remote" = true ↔
       0 < s.divergence.behind ∧ s.divergence.ahead = 0) := by
  have redD := hasIssue_diagnose_eq_divergence s "branches-diverged" h hr
    (by decide) (by decide) (by decide) (by decide) (by decide) (by decide)
    (by decide) (by decide) (by decide)
  have redB := hasIssue_diagnose_eq_divergence s "behind-remote" h hr
    (by decide) (by decide) (by decide) (by decide) (by decide) (by decide)
    (by decide) (by decide) (by decide)
  have f1 := mem_divergence_diverged s hu
  have f2 := mem_divergence_behind s hu
  refine ⟨?_, ?_, ?_⟩
  · rintro ⟨ha, hb⟩
    refine ⟨?_, ?_⟩
    · rw [redD]
      cases hq : hasIssue (divergenceIssues s) "branches-diverged" with
      | false => rfl
      | true => exfalso; rcases f1.mp hq with ⟨_, h2⟩; omega
    · rw [redB]
      cases hq : hasIssue (divergenceIssues s) "behind-remote" with
      | false => rfl
      | true => exfalso; rcases f2.mp hq with ⟨h1, _⟩; omega
  · rw [redD]; exact f1
  · rw [redB]; exact f2

/-- C4 witness: the ahead-only state `ahead = 3, behind = 0` emits neither
issue. -/
theorem claim_C4_witness :
    hasIssue (diagnoseFastPushIssues stAheadOnly) "branches-diverged" = false ∧
    hasIssue (diagnoseFastPushIssues stAheadOnly) "behind-remote" = false :=
  (claim_C4_ahead_only_not_an_issue stAheadOnly rfl rfl rfl).1
    ⟨by decide, rfl⟩

/-- `lockIssuesOf` distributes over concatenation. -/
lemma lockIssuesOf_append (a b : List FastPushIssue) :
    lockIssuesOf (a ++ b) = lockIssuesOf a ++ lockIssuesOf b := by
  simp [lockIssuesOf]

/-- A list whose members all carry non-lock ids contributes nothing to
`lockIssuesOf`. -/
lemma lockIssuesOf_of_nonlock (l : List FastPushIssue)
    (h : ∀ x ∈ l, (x.id == "stale-lock" || x.id == "active-lock") = false) :
    lockIssuesOf l = [] := by
  simp only [lockIssuesOf]
  refine List.filter_eq_nil_iff.mpr ?_
  intro a ha
  simp [h a ha]

/-- A conditional singleton segment with a non-lock id contributes nothing
to `lockIssuesOf`. -/
lemma lockIssuesOf_ite_nonlock (c : Prop) [Decidable c] (x : FastPushIssue)
    (hx : (x.id == "stale-lock" || x.id == "active-lock") = false) :
    lockIssuesOf (if c then [x] else []) = [] := by
  split_ifs with h
  · exact lockIssuesOf_of_nonlock _ (by intro a ha; simp_all)
  · rfl

/-- `lockIssuesOf` keeps the lock segment intact. -/
lemma lockIssuesOf_checkForLockFiles (s : RepoState) :
    lockIssuesOf (checkForLockFiles s) = checkForLockFiles s := by
  unfold checkForLockFiles
  split_ifs <;> simp [lockIssuesOf, staleLockIssue, activeLockIssue]

/-- For a repository, the lock issues of the full diagnosis are exactly the
lock segment. -/
lemma lockIssuesOf_diagnose (s : RepoState) (h : s.isRepoB = true) :
    lockIssuesOf (diagnoseFastPushIssues s) = checkForLockFiles s := by
  have e1 : lockIssuesOf (if s.conflicts.length > 0 then [mergeConflictsIssue]
      else []) = [] := lockIssuesOf_ite_nonlock _ _ (by decide)
  have e2 : lockIssuesOf (if s.rebaseInProgress then [rebaseInProgressIssue]
      else []) = [] := lockIssuesOf_ite_nonlock _ _ (by decide)
  have e3 : lockIssuesOf (if s.mergeInProgress then [mergeInProgressIssue]
      else []) = [] := lockIssuesOf_ite_nonlock _ _ (by decide)
  have e4 : lockIssuesOf (if !hasRemote s then [noRemoteIssue] else []) = [] :=
    lockIssuesOf_ite_nonlock _ _ (by decide)
  have e5 : lockIssuesOf (if hasRemote s then divergenceIssues s else []) = [] := by
    split_ifs with hc
    · exact lockIssuesOf_of_nonlock _ (fun x hx => by
        rcases divergenceIssues_shape s x hx with hxe | hxe | hxe | hxe <;>
          subst hxe <;> decide)
    · rfl
  have e6 : lockIssuesOf (if s.dirtySubmodules.length > 0 then
      [dirtySubmodulesIssue] else []) = [] := lockIssuesOf_ite_nonlock _ _ (by decide)
  have e7 : lockIssuesOf (nothingToDoIssues s) = [] :=
    lockIssuesOf_of_nonlock _ (fun x hx => by
      have hxe := nothingToDoIssues_shape s x hx; subst hxe; decide)
  have e8 : lockIssuesOf (detachedHeadIssues s) = [] :=
    lockIssuesOf_of_nonlock _ (fun x hx => by
      have hxe := detachedHeadIssues_shape s x hx; subst hxe; decide)
  unfold diagnoseFastPushIssues
  have hnot : ¬((!s.isRepoB) = true) := by simp [h]
  rw [if_neg hnot]
  simp only [lockIssuesOf_append, e1, e2, e3, e4, e5, e6, e7, e8,
    lockIssuesOf_checkForLockFiles, List.nil_append, List.append_nil]

/-- C9: for a repository, when `index.lock` exists the diagnosis contains
exactly one lock issue — `stale-lock` iff the age exceeds five minutes,
`active-lock` otherwise; when it does not exist, neither is emitted; and
the lock issues depend only on the file's existence and age (any two
repository states agreeing on those two fields — whatever the owning
process's liveness or any other field — yield the same lock issues). -/
theorem claim_C9_lock_staleness (s : RepoState) (h : s.isRepoB = true) :
    (s.lockExists = true →
       lockIssuesOf (diagnoseFastPushIssues s) =
         (if s.lockAgeMs > 5 * 60 * 1000 then [staleLockIssue]
          else [activeLockIssue])) ∧
    (s.lockExists = false →
       lockIssuesOf (diagnoseFastPushIssues s) = []) ∧
    (∀ t : RepoState, t.isRepoB = true → t.lockExists = s.lockExists →
       t.lockAgeMs = s.lockAgeMs →
       lockIssuesOf (diagnoseFastPushIssues t) =
         lockIssuesOf (diagnoseFastPushIssues s)) := by
  refine ⟨?_, ?_, ?_⟩
  · intro hl
    rw [lockIssuesOf_diagnose s h]
    unfold checkForLockFiles
    rw [if_pos hl]
  · intro hl
    rw [lockIssuesOf_diagnose s h]
    unfold checkForLockFiles
    rw [if_neg (by simp [hl])]
  · intro t ht hle hla
    rw [lockIssuesOf_diagnose t ht, lockIssuesOf_diagnose s h]
    unfold checkForLockFiles
    rw [hle, hla]

/-- C9 witness: a ten-minute-old lock whose owning process is alive still
yields exactly the `stale-lock` issue. -/
theorem claim_C9_witness :
    lockIssuesOf (diagnoseFastPushIssues stStaleLock) = [staleLockIssue] := by
  have hq := (claim_C9_lock_staleness stStaleLock rfl).1 rfl
  simpa using hq

/-- C7: evaluation at the failing input.  The `nothing-to-do` issue is
produced with `autoFixable = false`, so `resolveIssuesInteractively` routes
it to the generic blocking prompt: a user who answers
'I Fixed It — Continue' makes remediation succeed and the flow proceeds to
stage/commit/push — even though the dedicated `nothing-to-do` case of
`handleFixableIssue` (which is unreachable for this issue) would always
abort. -/
theorem claim_C7_nothing_to_do_can_continue :
    nothingToDoIssue.autoFixable = false ∧
    resolveIssuesInteractively allContinueChoices [nothingToDoIssue] =
      Except.ok true ∧
    handleFixableIssue allContinueChoices nothingToDoIssue = Except.ok false := by
  refine ⟨rfl, ?_, rfl⟩
  rfl
